import Mathlib

/-!
Shallow embedding of `src/rpyc_service.py` (Marzban-node control-plane agent).

Stateful Python code is modelled as explicit state passing over a `World`
record holding the service singletons (`self.core`, `self.connection`), an
abstract operating-system view (the set of running engine process ids), the
geo-assets directory, the installed executable and the optional
docker-compose deployment descriptor.  Fallible code returns an `Option Err`
next to the resulting state; helper collaborator calls additionally emit an
ordered `Event` trace so that sequencing facts ("stopped before installed")
are statable.

The engine collaborator `XRayCore` lives in `xray.py`, which is not part of
the source tree under verification; its operations used here (`stop`,
`start`, `get_version`, the `started` flag) are modelled from the spec, as
marked in their doc comments.
-/

/-- Exceptions raised by the service code.  `runtimeError` covers Python
`RuntimeError`, `processLookupError` the error of `fetch_xray_version`,
`attributeError` an attribute access on `None`, and `configError` /
`processError` the spec's ConfigError / ProcessError raised by the
collaborators `XRayConfig` / `XRayCore.start`. -/
inductive Err
| runtimeError (msg : String)
| processLookupError (msg : String)
| attributeError
| configError (msg : String)
| processError (msg : String)
deriving DecidableEq, Repr

deriving instance DecidableEq for Except

/-- Observable side effects, in the order the code performs them. -/
inductive Event
| coreStopped (pid : Nat)
| coreSpawned (pid : Nat)
| download (url : String)
| fileSaved (name : String)
| installed (path : String)
| composeWritten
deriving DecidableEq, Repr

/-- A transport channel.  `id` stands for Python object identity (the code
compares channels with `is`); `peer` models the `peer` attribute the service
assigns on accepting a connection (`none` = attribute absent). -/
structure Conn where
  id : Nat
  peer : Option String
deriving DecidableEq, Repr

/-- The agent's record of the supervised engine process, mirroring the
attributes of `xray.XRayCore` that `rpyc_service.py` reads or writes:
`executable_path`, `assets_path`, `version`, `started`, plus the config it
was started with and the operating-system pid of its process (`none` when
never launched). -/
structure XRayCore where
  executable_path : String
  assets_path : String
  version : String
  config : Option String
  started : Bool
  pid : Option Nat
deriving DecidableEq, Repr

/-- Parsed docker-compose data for the `marzban-node` service: its
environment mapping and volume list, the only parts the code touches. -/
structure Compose where
  env : List (String × String)
  volumes : List String
deriving DecidableEq, Repr

/-- Global state: the service singletons `self.core` and `self.connection`,
the pids of running engine processes with a fresh-pid counter, the files in
the geo assets directory `/var/lib/reb/assets` (name, content), the
installed core executable, and the optional `/opt/reb/docker-compose.yml`
(`none` = file absent). -/
structure World where
  core : Option XRayCore
  connection : Option Conn
  running : List Nat
  nextPid : Nat
  assetsFiles : List (String × String)
  installedExe : Option String
  compose : Option Compose
deriving DecidableEq, Repr

/-- Result of a service operation that returns nothing: the new world, the
emitted events and the exception, if one propagated. -/
structure SvcOut where
  w : World
  tr : List Event
  err : Option Err
deriving DecidableEq, Repr

/-- Result of `update_core` / `update_geo`: additionally the success payload
(`detail` message, saved-files list). -/
structure Saved where
  name : String
  path : String
deriving DecidableEq, Repr

structure UpdOut where
  w : World
  tr : List Event
  err : Option Err
  detail : Option String
  saved : List Saved
deriving DecidableEq, Repr

/-- Modelled from the spec: `XRayCore.stop` (in the out-of-tree `xray.py`)
raises a RuntimeError when the engine has not been started
(exception-as-control-flow for idempotent stop, spec sections 4.2 and 9);
when started it terminates the engine process.  The callers in
`rpyc_service.py` rely on exactly this: they wrap the call in
`except RuntimeError: pass`. -/
def notStartedMsg : String := "Xray has not been started"

def XRayCore.stopCore (w : World) (c : XRayCore) :
    Except Err (World × XRayCore × List Event) :=
  if c.started then
    match c.pid with
    | some p =>
      .ok ({ w with running := w.running.erase p },
           { c with started := false }, [.coreStopped p])
    | none => .ok (w, { c with started := false }, [])
  else .error (.runtimeError notStartedMsg)

/-- Outcome of `conn.ping()` against the recorded channel in `on_connect`:
success, or one of the three exception classes the code catches
(`EOFError`, `TimeoutError`, `AttributeError`). -/
inductive ProbeResult
| ok
| eofError
| timeoutError
| attributeError
deriving DecidableEq, Repr

structure ConnectOut where
  w : World
  accepted : Bool
deriving DecidableEq, Repr

/-- Modelled from the spec: the well-known install locations read from
`config.py` (not in the source tree). -/
def XRAY_EXECUTABLE_PATH : String := "/usr/local/bin/xray"

def XRAY_ASSETS_PATH : String := "/usr/local/share/xray"

/-- Lowercasing as Python str.lower performs it on the ASCII platform
strings this code receives, written over the character list so that proofs
can evaluate it by kernel reduction. -/
def lowerStr (s : String) : String := ⟨s.data.map Char.toLower⟩

/-- Check that the second character list begins with the first. -/
def beginsWithList : List Char → List Char → Bool
| [], _ => true
| _ :: _, [] => false
| a :: as, b :: bs => a = b && beginsWithList as bs

/-- Python str.startswith over the underlying character lists. -/
def beginsWith (s p : String) : Bool := beginsWithList p.data s.data

/-- Python str.strip: drop whitespace from both ends, written structurally
over the character list. -/
def stripChars (l : List Char) : List Char :=
  ((l.dropWhile Char.isWhitespace).reverse.dropWhile Char.isWhitespace).reverse

def strip (s : String) : String := ⟨stripChars s.data⟩

namespace XrayService

/-- Embedding of `XrayService.on_connect`.  If a connection is recorded, ping
it: on success the new connection is closed (whether or not the recorded
peer attribute is set, only the logging differs) and the record is kept; on
EOFError/TimeoutError/AttributeError the new connection is accepted, its
peer address recorded, and the record replaced.  With no recorded
connection the new one is accepted and recorded. -/
def on_connect (probe : ProbeResult) (newConn : Conn) (newPeer : String)
    (w : World) : ConnectOut :=
  match w.connection with
  | some _ =>
    match probe with
    | .ok => ⟨w, false⟩
    | _ => ⟨{ w with connection := some { newConn with peer := some newPeer } }, true⟩
  | none => ⟨{ w with connection := some { newConn with peer := some newPeer } }, true⟩

/-- Embedding of `XrayService.on_disconnect`.  Only if the disconnecting
channel is the recorded one (`conn is self.connection`): stop the core if
present (the bare `self.core.stop()` call is not wrapped in a handler, so
its RuntimeError propagates and the two clearing assignments are skipped),
then clear both the core and the connection record. -/
def on_disconnect (w : World) (conn : Conn) : SvcOut :=
  match w.connection with
  | some cur =>
    if conn = cur then
      match w.core with
      | some c =>
        match XRayCore.stopCore w c with
        | .ok (w2, _, evs) => ⟨{ w2 with core := none, connection := none }, evs, none⟩
        | .error e => ⟨w, [], some e⟩
      | none => ⟨{ w with core := none, connection := none }, [], none⟩
    else ⟨w, [], none⟩
  | none => ⟨w, [], none⟩

/-- Embedding of the exposed `XrayService.stop`: if a core is recorded, call
its `stop` inside `except RuntimeError: pass`; in all cases assign
`self.core = None`. -/
def stop (w : World) : SvcOut :=
  match w.core with
  | none => ⟨{ w with core := none }, [], none⟩
  | some c =>
    match XRayCore.stopCore w c with
    | .ok (w2, _, evs) => ⟨{ w2 with core := none }, evs, none⟩
    | .error (.runtimeError _) => ⟨{ w with core := none }, [], none⟩
    | .error e => ⟨w, [], some e⟩

/-- Environment of one `start` call: whether `XRayConfig(config, peer)`
parses (modelled from the spec: ConfigError on invalid config), whether
`XRayCore.start` launches (ProcessError otherwise), and the version string
the freshly constructed core reports. -/
structure StartEnv where
  configOk : Bool
  launchOk : Bool
  versionStr : String

/-- Embedding of the exposed `XrayService.start`.  Mirrors the source order:
an existing core is first torn down via `self.stop()`; then
`self.connection.peer` is read (AttributeError when no connection or no peer
attribute); the config is built; `self.core` is assigned the freshly
constructed (not yet started) core; the lifecycle hooks are wired (no state
effect modelled); finally `core.start(config)` launches the process.  An
exception from the `try` block is logged and re-raised, leaving `self.core`
as already assigned. -/
def start (env : StartEnv) (w : World) (config : String) : SvcOut :=
  let s0 := if w.core.isSome then stop w else ⟨w, [], none⟩
  match s0.w.connection with
  | none => ⟨s0.w, s0.tr, some .attributeError⟩
  | some conn =>
    match conn.peer with
    | none => ⟨s0.w, s0.tr, some .attributeError⟩
    | some _ =>
      if env.configOk then
        let c : XRayCore :=
          { executable_path := XRAY_EXECUTABLE_PATH
            assets_path := XRAY_ASSETS_PATH
            version := env.versionStr
            config := none
            started := false
            pid := none }
        let w1 := { s0.w with core := some c }
        if env.launchOk then
          let p := w1.nextPid
          ⟨{ w1 with
              core := some { c with started := true, pid := some p, config := some config }
              running := w1.running ++ [p]
              nextPid := p + 1 },
            s0.tr ++ [.coreSpawned p], none⟩
        else ⟨w1, s0.tr, some (.processError "xray failed to start")⟩
      else ⟨s0.w, s0.tr, some (.configError "invalid configuration")⟩

/-- Embedding of the static `_detect_asset_name`, a pure function of the
`platform.system()` / `platform.machine()` strings.  Both are lowercased;
any system string starting with "linux" enters the architecture dispatch;
everything else falls through to the RuntimeError. -/
def detect_asset_name (sys arch : String) : Except Err String :=
  let s := lowerStr sys
  let a := lowerStr arch
  if beginsWith s "linux" then
    if a = "x86_64" ∨ a = "amd64" then .ok "Xray-linux-64.zip"
    else if a = "aarch64" ∨ a = "arm64" then .ok "Xray-linux-arm64-v8a.zip"
    else if a = "armv7l" ∨ a = "armv7" then .ok "Xray-linux-arm32-v7a.zip"
    else if a = "armv6l" then .ok "Xray-linux-arm32-v6.zip"
    else if a = "riscv64" then .ok "Xray-linux-riscv64.zip"
    else .error (.runtimeError "Unsupported platform for node")
  else .error (.runtimeError "Unsupported platform for node")

end XrayService

/-- Update-or-append of a key in an association list, mirroring assignment
into a Python dict (`env[key] = value`, order preserving) and, for the
assets directory, `open(dst, "wb")` overwriting an existing file. -/
def setKey : List (String × String) → String → String → List (String × String)
| [], k, v => [(k, v)]
| (a, b) :: rest, k, v =>
  if a = k then (a, v) :: rest else (a, b) :: setKey rest k v

/-- The fixed bind-mount entry `_update_docker_compose` adds. -/
def assetVolume : String := "/var/lib/reb/assets:/usr/local/share/xray"

/-- The pure file rewrite performed by `_update_docker_compose` before it
attempts the redeploy: set the environment key and append the asset volume
when missing. -/
def patchCompose (c : Compose) (key value : String) : Compose :=
  { env := setKey c.env key value
    volumes := if assetVolume ∈ c.volumes then c.volumes else c.volumes ++ [assetVolume] }

/-- Error message of `_update_docker_compose`: its whole body is wrapped in
`except Exception as e: raise RuntimeError(...)`, and the redeploy line
`subprocess.run([...])` always raises NameError because `subprocess` is
never imported anywhere in `rpyc_service.py`; the NameError is caught and
re-raised as this RuntimeError.  Crucially, the patched compose data has
already been written back to the file at that point. -/
def composeFailMsg : String :=
  "Failed to update docker-compose.yml: name subprocess is not defined"

/-- Embedding of the static `_update_docker_compose` on an existing compose
file: returns the rewritten (already persisted) compose data together with
the RuntimeError that the broken redeploy step always produces. -/
def update_docker_compose (c : Compose) (key value : String) : Compose × Err :=
  (patchCompose c key value, .runtimeError composeFailMsg)

/-- One `\x7bname, url\x7d` item of the `update_geo` argument; `none`
models a missing dict key (`item.get` returning `None`). -/
structure GeoItem where
  name : Option String
  url : Option String
deriving DecidableEq, Repr

/-- Normalisation `(item.get("name") or "").strip()` of the source. -/
def geoName (i : GeoItem) : String := strip (i.name.getD "")

def geoUrl (i : GeoItem) : String := strip (i.url.getD "")

/-- Environment of a batch download: the outcome of `requests.get` per url
(ok content, or the textual exception), and the outcome of writing a file
(`none` = success, `some e` = the textual exception). -/
structure GeoEnv where
  dl : String → Except String String
  save : String → Option String

def dlFailMsg (name e : String) : String :=
  "Failed to download " ++ name ++ ": " ++ e

def saveFailMsg (name e : String) : String :=
  "Failed to save " ++ name ++ ": " ++ e

def itemValidationMsg : String := "Each item must include non-empty name and url"

structure DlOut where
  fs : List (String × String)
  tr : List Event
  res : Except Err (List Saved)

/-- Embedding of the static `_download_files_to`: iterate the items in
order; an item with empty name or url, a failing download, or a failing
save raises immediately, aborting the rest of the batch; a successful item
writes `path/name` and is appended to the returned `saved` list. -/
def download_files_to (env : GeoEnv) (fs : List (String × String)) :
    List GeoItem → DlOut
| [] => ⟨fs, [], .ok []⟩
| item :: rest =>
  let name := geoName item
  let url := geoUrl item
  if name = "" ∨ url = "" then
    ⟨fs, [], .error (.runtimeError itemValidationMsg)⟩
  else
    match env.dl url with
    | .error e => ⟨fs, [.download url], .error (.runtimeError (dlFailMsg name e))⟩
    | .ok content =>
      match env.save name with
      | some e => ⟨fs, [.download url], .error (.runtimeError (saveFailMsg name e))⟩
      | none =>
        let out := download_files_to env (setKey fs name content) rest
        ⟨out.fs, .download url :: .fileSaved name :: out.tr,
          out.res.map (fun xs => ⟨name, "/var/lib/reb/assets/" ++ name⟩ :: xs)⟩

/-- The dynamically typed `files` argument of `update_geo`: a Python list of
items, or any non-list value (rejected by the `isinstance` check). -/
inductive GeoArg
| list (files : List GeoItem)
| nonList
deriving DecidableEq

def geoValidationMsg : String := "files must be a non-empty list of \x7bname,url\x7d"

/-- Embedding of the exposed `XrayService.update_geo`: validate the
argument, download the batch into the assets directory, point a present
core at the container assets path, and, when the compose descriptor
exists, rewrite it — which then always raises (see `composeFailMsg`). -/
def XrayService.update_geo (env : GeoEnv) (w : World) (files : GeoArg) : UpdOut :=
  match files with
  | .nonList => ⟨w, [], some (.runtimeError geoValidationMsg), none, []⟩
  | .list fs =>
    if fs.isEmpty then ⟨w, [], some (.runtimeError geoValidationMsg), none, []⟩
    else
      let d := download_files_to env w.assetsFiles fs
      match d.res with
      | .error e => ⟨{ w with assetsFiles := d.fs }, d.tr, some e, none, []⟩
      | .ok saved =>
        let w1 := { w with assetsFiles := d.fs }
        let w2 :=
          match w1.core with
          | some c => { w1 with core := some { c with assets_path := "/usr/local/share/xray" } }
          | none => w1
        match w2.compose with
        | some comp =>
          let pc := patchCompose comp "XRAY_ASSETS_PATH" "/usr/local/share/xray"
          ⟨{ w2 with compose := some pc }, d.tr ++ [.composeWritten],
            some (.runtimeError composeFailMsg), none, []⟩
        | none =>
          ⟨w2, d.tr, none, some "Geo assets saved to /var/lib/reb/assets", saved⟩

/-- Environment of `update_core`: the platform strings, the download
oracle, and whether `_install_zip` finds the xray binary inside the
extracted archive. -/
structure CoreEnv where
  sysName : String
  machine : String
  dl : String → Except String String
  exeFound : Bool

def coreUrl (version asset : String) : String :=
  "https://github.com/XTLS/Xray-core/releases/download/" ++ version ++ "/" ++ asset

def installedExePath : String := "/var/lib/reb/xray-core/xray"

/-- Embedding of the exposed `XrayService.update_core`, in source order:
resolve the asset name; download it; if a core is recorded and started,
stop it in place inside `except RuntimeError: pass` (the handle object is
kept, only its process dies); extract and install the binary (the archive
member `xray` lands directly at the final path, so the rename branch is the
identity); mutate the recorded core's `executable_path` in place (the
discarded `get_version()` query is modelled from the spec as effect-free);
finally, when the compose descriptor exists, rewrite it — which then always
raises (see `composeFailMsg`). -/
def XrayService.update_core (env : CoreEnv) (w : World) (version : String) : UpdOut :=
  match XrayService.detect_asset_name env.sysName env.machine with
  | .error e => ⟨w, [], some e, none, []⟩
  | .ok asset =>
    let url := coreUrl version asset
    match env.dl url with
    | .error e => ⟨w, [.download url], some (.runtimeError ("Download failed: " ++ e)), none, []⟩
    | .ok _ =>
      let stopped : World × List Event :=
        match w.core with
        | some c =>
          if c.started then
            match XRayCore.stopCore w c with
            | .ok (w2, c2, evs) => ({ w2 with core := some c2 }, evs)
            | .error _ => (w, [])
          else (w, [])
        | none => (w, [])
      let w1 := stopped.1
      let evs1 := stopped.2
      if env.exeFound then
        let w2 := { w1 with installedExe := some installedExePath }
        let w3 :=
          match w2.core with
          | some c => { w2 with core := some { c with executable_path := installedExePath } }
          | none => w2
        match w3.compose with
        | some comp =>
          let pc := patchCompose comp "XRAY_EXECUTABLE_PATH" "/var/lib/marzban-node/xray-core/xray"
          ⟨{ w3 with compose := some pc },
            .download url :: evs1 ++ [.installed installedExePath, .composeWritten],
            some (.runtimeError composeFailMsg), none, []⟩
        | none =>
          ⟨w3, .download url :: evs1 ++ [.installed installedExePath], none,
            some ("Node core ready at " ++ installedExePath), []⟩
      else
        ⟨w1, .download url :: evs1, some (.runtimeError "xray binary not found"), none, []⟩

namespace XrayCoreLogsHandler

/-- State of one run of `XrayCoreLogsHandler.cast`, with time in tenths of a
second starting at 0 when the batcher starts (the claim under scrutiny
fixes this origin).  `pending` is the schedule of lines pushed into the log
deque: (arrival time, line) in production order; a line is poppable once its
arrival time has passed.  `sent` records the callback invocations (time,
batched text).  `lastSent` starts at 0, mirroring `last_sent_ts = 0`. -/
structure CastState where
  now : Nat
  cache : String
  lastSent : Nat
  sent : List (Nat × String)
  pending : List (Nat × String)
  interval : Nat
deriving DecidableEq, Repr

/-- First half of one `while` iteration of `cast`: flush the cache through
the callback when the interval has elapsed and the cache is non-empty. -/
def flushStep (s : CastState) : CastState :=
  if s.interval ≤ s.now - s.lastSent ∧ s.cache ≠ "" then
    { s with sent := s.sent ++ [(s.now, s.cache)], cache := "", lastSent := s.now }
  else s

/-- Second half of one iteration: pop one available line and append
`line + newline` to the cache, or sleep 0.2 s when none is available. -/
def popOrSleep (s : CastState) : CastState :=
  match s.pending with
  | (t, line) :: rest =>
    if t ≤ s.now then { s with pending := rest, cache := s.cache ++ line ++ "\n" }
    else { s with now := s.now + 2 }
  | [] => { s with now := s.now + 2 }

/-- One full iteration of the `while self.active` loop body. -/
def iter (s : CastState) : CastState := popOrSleep (flushStep s)

/-- Iterate the loop body a given number of times. -/
def run (s : CastState) : Nat → CastState
| 0 => s
| n + 1 => run (iter s) n

/-- Program counter of the `cast` loop thread: about to test
`while self.active`, inside the body, or exited. -/
inductive LPc
| check
| body
| done
deriving DecidableEq, Repr

/-- Joint state of the `cast` thread and a `stop()` caller: the shared
`active` flag, the loop thread position, whether `stop()` has performed
`self.active = False`, whether its `self.thread.join()` has returned, and
the number of callback invocations so far. -/
structure LBState where
  active : Bool
  pc : LPc
  stopSet : Bool
  joined : Bool
  callbacks : Nat
deriving DecidableEq, Repr

/-- Interleaved small-step semantics of the loop thread and the `stop()`
caller.  The loop body nondeterministically fires the callback or not,
covering every timing of line production; `join` can only return once the
loop thread has observed `active = False` at the `while` test and exited. -/
inductive LBStep : LBState → LBState → Prop
| enterBody (s : LBState) : s.pc = .check → s.active = true →
    LBStep s { s with pc := .body }
| exitLoop (s : LBState) : s.pc = .check → s.active = false →
    LBStep s { s with pc := .done }
| fireCallback (s : LBState) : s.pc = .body →
    LBStep s { s with pc := .check, callbacks := s.callbacks + 1 }
| skipCallback (s : LBState) : s.pc = .body →
    LBStep s { s with pc := .check }
| setInactive (s : LBState) : s.stopSet = false →
    LBStep s { s with active := false, stopSet := true }
| joinReturns (s : LBState) : s.stopSet = true → s.pc = .done → s.joined = false →
    LBStep s { s with joined := true }

/-- Initial joint state: loop running, `stop()` not yet called. -/
def lbInit : LBState :=
  { active := true, pc := .check, stopSet := false, joined := false, callbacks := 0 }

/-- Reachability along interleaved steps. -/
def LBReach : LBState → LBState → Prop := Relation.ReflTransGen LBStep

end XrayCoreLogsHandler

section Theorems

open XrayCoreLogsHandler

/-- Sample worlds used by witnesses and counterexamples. -/
def conn1 : Conn := ⟨1, some "10.0.0.1"⟩

def conn2 : Conn := ⟨2, none⟩

def emptyWorld : World :=
  { core := none, connection := none, running := [], nextPid := 0,
    assetsFiles := [], installedExe := none, compose := none }

def connectedWorld : World := { emptyWorld with connection := some conn1 }

/-- C1: at most one session is ever recorded (the record is a single
optional field, so the result of `on_connect` always holds at most one
connection); with no recorded session a new connection is accepted and
recorded; with one recorded, the new connection is accepted and replaces
the record exactly when the liveness probe fails with EOF, timeout or
AttributeError, and on a successful probe the new connection is closed
(not accepted) and the whole state is unchanged. -/
theorem C1_session_guard (w : World) (old newConn : Conn) (probe : ProbeResult)
    (p : String) :
    (w.connection = none →
      XrayService.on_connect probe newConn p w =
        ⟨{ w with connection := some { newConn with peer := some p } }, true⟩) ∧
    (w.connection = some old →
      (((XrayService.on_connect probe newConn p w).accepted = true ∧
        (XrayService.on_connect probe newConn p w).w.connection =
          some { newConn with peer := some p }) ↔ probe ≠ .ok) ∧
      (probe = .ok → XrayService.on_connect probe newConn p w = ⟨w, false⟩)) := by
  refine ⟨fun h => ?_, fun h => ⟨?_, fun hp => ?_⟩⟩
  · simp [XrayService.on_connect, h]
  · cases probe <;> simp [XrayService.on_connect, h]
  · subst hp; simp [XrayService.on_connect, h]

/-- Witness for C1 at concrete inputs: a recorded session, a successful
probe; the newcomer is rejected and the record survives. -/
theorem C1_session_guard_witness :
    connectedWorld.connection = some conn1 ∧
    XrayService.on_connect .ok conn2 "10.0.0.2" connectedWorld = ⟨connectedWorld, false⟩ :=
  ⟨rfl, ((C1_session_guard connectedWorld conn1 conn2 .ok "10.0.0.2").2 rfl).2 rfl⟩

/-- C4: the exposed `stop` never raises; it always leaves no core handle;
it is a no-op on the world when no handle exists; when a started handle
with a pid exists it requests termination of that process (the
RuntimeError of an already-stopped core being swallowed); and a second
consecutive `stop` also succeeds and changes nothing. -/
theorem C4_stop_idempotent (w : World) :
    (XrayService.stop w).err = none ∧
    (XrayService.stop w).w.core = none ∧
    (w.core = none → (XrayService.stop w).w = w) ∧
    (∀ c p, w.core = some c → c.started = true → c.pid = some p →
      (XrayService.stop w).tr = [.coreStopped p] ∧
      (XrayService.stop w).w.running = w.running.erase p) ∧
    (∀ c, w.core = some c → c.started = false →
      (XrayService.stop w).w = { w with core := none }) ∧
    (XrayService.stop ((XrayService.stop w).w)).w = (XrayService.stop w).w ∧
    (XrayService.stop ((XrayService.stop w).w)).err = none := by
  have hstop : ∀ v : World, v.core = none → XrayService.stop v = ⟨v, [], none⟩ := by
    intro v hv
    have hv2 : ({ v with core := none } : World) = v := by
      cases v; simp_all
    simp [XrayService.stop, hv, hv2]
  rcases hw : w.core with _ | c
  · have h1 := hstop w hw
    refine ⟨by simp [h1], by simp [h1, hw], fun _ => by simp [h1], ?_, ?_, ?_, ?_⟩
    · intro c p hc _ _; exact Option.noConfusion hc
    · intro c hc _; exact Option.noConfusion hc
    · simp [h1, hstop w hw]
    · simp [h1, hstop w hw]
  · by_cases hs : c.started
    · rcases hp : c.pid with _ | p
      · have h1 : XrayService.stop w = ⟨{ w with core := none }, [], none⟩ := by
          simp [XrayService.stop, XRayCore.stopCore, hw, hs, hp]
        refine ⟨by simp [h1], by simp [h1], fun h => Option.noConfusion h,
          ?_, ?_, ?_, ?_⟩
        · intro c' p hc hs' hp'
          simp only [Option.some.injEq] at hc
          subst hc
          rw [hp] at hp'
          exact Option.noConfusion hp'
        · intro c' hc hs'
          simp only [Option.some.injEq] at hc
          subst hc
          rw [hs] at hs'
          exact Bool.noConfusion hs'
        · rw [h1, hstop { w with core := none } rfl]
        · rw [h1, hstop { w with core := none } rfl]
      · have h1 : XrayService.stop w =
            ⟨{ w with core := none, running := w.running.erase p },
              [.coreStopped p], none⟩ := by
          simp [XrayService.stop, XRayCore.stopCore, hw, hs, hp]
        refine ⟨by simp [h1], by simp [h1], fun h => Option.noConfusion h,
          ?_, ?_, ?_, ?_⟩
        · intro c' p' hc hs' hp'
          simp only [Option.some.injEq] at hc
          subst hc
          rw [hp] at hp'
          simp only [Option.some.injEq] at hp'
          subst hp'
          simp [h1]
        · intro c' hc hs'
          simp only [Option.some.injEq] at hc
          subst hc
          rw [hs] at hs'
          exact Bool.noConfusion hs'
        · rw [h1, hstop { w with core := none, running := w.running.erase p } rfl]
        · rw [h1, hstop { w with core := none, running := w.running.erase p } rfl]
    · have h1 : XrayService.stop w = ⟨{ w with core := none }, [], none⟩ := by
        simp [XrayService.stop, XRayCore.stopCore, hw, hs]
      refine ⟨by simp [h1], by simp [h1], fun h => Option.noConfusion h,
        ?_, ?_, ?_, ?_⟩
      · intro c' p hc hs' hp'
        simp only [Option.some.injEq] at hc
        subst hc
        exact absurd hs' hs
      · intro c' hc hs'
        simp [h1]
      · rw [h1, hstop { w with core := none } rfl]
      · rw [h1, hstop { w with core := none } rfl]
/-- Witness for C4 at a concrete started handle. -/
def startedCore : XRayCore :=
  { executable_path := "/usr/local/bin/xray", assets_path := "/usr/local/share/xray",
    version := "1.8.4", config := some "cfg", started := true, pid := some 7 }

def startedWorld : World :=
  { emptyWorld with core := some startedCore, connection := some conn1, running := [7], nextPid := 8 }

theorem C4_stop_idempotent_witness :
    (XrayService.stop startedWorld).err = none ∧
    (XrayService.stop startedWorld).w.core = none ∧
    (XrayService.stop startedWorld).tr = [.coreStopped 7] :=
  ⟨(C4_stop_idempotent startedWorld).1, (C4_stop_idempotent startedWorld).2.1,
    ((C4_stop_idempotent startedWorld).2.2.2.1 startedCore 7 rfl rfl rfl).1⟩

/-- C6 (amended): `on_disconnect` for a channel that is not the recorded one
leaves the whole state unchanged; for the recorded channel it clears both
the core handle and the session record when no core exists, and when a
started core exists it additionally stops that core's process; but when a
core exists that is not started (reachable, e.g. after `update_core` stopped
the running core in place, or after a `start` whose launch failed), the bare
`self.core.stop()` raises RuntimeError and neither the handle nor the
record is cleared. -/
theorem C6_on_disconnect (w : World) (conn cur : Conn)
    (hcur : w.connection = some cur) :
    (conn ≠ cur → XrayService.on_disconnect w conn = ⟨w, [], none⟩) ∧
    (conn = cur → w.core = none →
      XrayService.on_disconnect w conn =
        ⟨{ w with core := none, connection := none }, [], none⟩) ∧
    (∀ c p, conn = cur → w.core = some c → c.started = true → c.pid = some p →
      XrayService.on_disconnect w conn =
        ⟨{ w with core := none, connection := none, running := w.running.erase p },
          [.coreStopped p], none⟩) ∧
    (∀ c, conn = cur → w.core = some c → c.started = false →
      XrayService.on_disconnect w conn =
        ⟨w, [], some (.runtimeError notStartedMsg)⟩) := by
  refine ⟨fun hne => ?_, fun he hc => ?_, fun c p he hc hs hp => ?_, fun c he hc hs => ?_⟩
  · simp [XrayService.on_disconnect, hcur, hne]
  · subst he; simp [XrayService.on_disconnect, hcur, hc]
  · subst he; simp [XrayService.on_disconnect, XRayCore.stopCore, hcur, hc, hs, hp]
  · subst he; simp [XrayService.on_disconnect, XRayCore.stopCore, hcur, hc, hs]

/-- Witness for the amended C6: stale disconnect ignored, current disconnect
with a started core clears everything and stops the process. -/
theorem C6_on_disconnect_witness :
    XrayService.on_disconnect startedWorld conn2 = ⟨startedWorld, [], none⟩ ∧
    XrayService.on_disconnect startedWorld conn1 =
      ⟨{ startedWorld with core := none, connection := none, running := [] },
        [.coreStopped 7], none⟩ := by
  have h := C6_on_disconnect startedWorld conn2 conn1 rfl
  have h2 := C6_on_disconnect startedWorld conn1 conn1 rfl
  refine ⟨h.1 (by decide), ?_⟩
  have h3 := h2.2.2.1 startedCore 7 rfl rfl rfl rfl
  rw [h3]
  rfl

/-- Counterexample to C6 as stated: a reachable world — obtained by a
connect followed by a `start` whose process launch failed — in which the
disconnecting channel IS the recorded session and a core handle exists, yet
`on_disconnect` clears neither the handle nor the record: the core was
never started, so its `stop()` raises and the clearing assignments are
skipped.  The claim says the handle and record are always cleared here. -/
def c6world : World :=
  (XrayService.start ⟨true, false, "1.8.4"⟩ connectedWorld "cfg").w

theorem C6_counterexample :
    c6world.connection = some conn1 ∧
    c6world.core ≠ none ∧
    (XrayService.on_disconnect c6world conn1).err =
      some (.runtimeError notStartedMsg) ∧
    (XrayService.on_disconnect c6world conn1).w = c6world := by
  refine ⟨rfl, by decide, rfl, rfl⟩

/-- Documented (system, machine) pairs of `_detect_asset_name` with the
archive each resolves to, exactly as the claim enumerates them. -/
def documentedPairs : List (String × String × String) :=
  [("linux", "x86_64", "Xray-linux-64.zip"), ("linux", "amd64", "Xray-linux-64.zip"),
   ("linux", "aarch64", "Xray-linux-arm64-v8a.zip"), ("linux", "arm64", "Xray-linux-arm64-v8a.zip"),
   ("linux", "armv7l", "Xray-linux-arm32-v7a.zip"), ("linux", "armv7", "Xray-linux-arm32-v7a.zip"),
   ("linux", "armv6l", "Xray-linux-arm32-v6.zip"), ("linux", "riscv64", "Xray-linux-riscv64.zip")]

/-- Architecture strings accepted inside the linux branch. -/
def supportedArchs : List String :=
  ["x86_64", "amd64", "aarch64", "arm64", "armv7l", "armv7", "armv6l", "riscv64"]

/-- Counterexample to C8 as stated: the pair ("linux2", "x86_64") appears in
no row of the documented matrix, yet `_detect_asset_name` does not raise on
it — the code tests `sys.startswith("linux")`, so any system string
beginning with "linux" is accepted.  The claim requires every pair outside
the matrix to raise. -/
theorem C8_counterexample :
    XrayService.detect_asset_name "linux2" "x86_64" = .ok "Xray-linux-64.zip" ∧
    ∀ r ∈ documentedPairs, ¬ (r.1 = "linux2" ∧ r.2.1 = "x86_64") := by
  refine ⟨by decide, by decide⟩

/-- Name the linux branch of `_detect_asset_name` assigns to a (lowercased)
supported architecture. -/
def archAsset (a : String) : String :=
  if a = "x86_64" ∨ a = "amd64" then "Xray-linux-64.zip"
  else if a = "aarch64" ∨ a = "arm64" then "Xray-linux-arm64-v8a.zip"
  else if a = "armv7l" ∨ a = "armv7" then "Xray-linux-arm32-v7a.zip"
  else if a = "armv6l" then "Xray-linux-arm32-v6.zip"
  else "Xray-linux-riscv64.zip"

/-- C8 (amended): asset-name resolution is a total pure function of the
(system, machine) string pair.  Every row of the documented matrix resolves
to its archive name; and after lowercasing both strings, a pair resolves to
the architecture archive exactly when the system begins with "linux" and
the machine is in the documented architecture list — so it raises the
unsupported-platform error on everything else, but prefix-matched systems
such as "linux2" and case variants are also accepted, not only the literal
documented pairs. -/
theorem C8_detect_asset_name (sys arch : String) :
    (∀ r ∈ documentedPairs, XrayService.detect_asset_name r.1 r.2.1 = .ok r.2.2) ∧
    (¬ (beginsWith (lowerStr sys) "linux" = true ∧ lowerStr arch ∈ supportedArchs) →
      XrayService.detect_asset_name sys arch =
        .error (.runtimeError "Unsupported platform for node")) ∧
    ((beginsWith (lowerStr sys) "linux" = true ∧ lowerStr arch ∈ supportedArchs) →
      XrayService.detect_asset_name sys arch = .ok (archAsset (lowerStr arch))) := by
  refine ⟨by decide, fun h => ?_, fun h => ?_⟩
  · rcases Decidable.not_and_iff_or_not.mp h with h1 | h2
    · simp [XrayService.detect_asset_name, h1]
    · have harch : ∀ x ∈ supportedArchs, lowerStr arch ≠ x := by
        intro x hx hax; exact h2 (hax ▸ hx)
      simp only [supportedArchs, List.mem_cons, List.not_mem_nil] at harch
      simp [XrayService.detect_asset_name,
        harch "x86_64" (by simp), harch "amd64" (by simp),
        harch "aarch64" (by simp), harch "arm64" (by simp),
        harch "armv7l" (by simp), harch "armv7" (by simp),
        harch "armv6l" (by simp), harch "riscv64" (by simp)]
  · obtain ⟨h1, h2⟩ := h
    simp only [supportedArchs, List.mem_cons, List.not_mem_nil, or_false] at h2
    rcases h2 with h2 | h2 | h2 | h2 | h2 | h2 | h2 | h2 <;>
      simp [XrayService.detect_asset_name, archAsset, h1, h2]

/-- Witness for the amended C8 at a non-linux pair: it raises. -/
theorem C8_detect_asset_name_witness :
    XrayService.detect_asset_name "windows" "amd64" =
      .error (.runtimeError "Unsupported platform for node") :=
  (C8_detect_asset_name "windows" "amd64").2.1 (by decide)

/-- Initial `cast` state for the scenario of the claim: batcher started at
t = 0 (time in tenths of a second, `last_sent_ts = 0`), default interval
0.6 s, lines "a" and "b" pushed at t = 0.0 and t = 0.1. -/
def c2init : CastState :=
  { now := 0, cache := "", lastSent := 0, sent := [],
    pending := [(0, "a"), (1, "b")], interval := 6 }

/-- Helper: `popOrSleep` never changes the flushed output. -/
theorem popOrSleep_sent (s : CastState) : (popOrSleep s).sent = s.sent := by
  unfold XrayCoreLogsHandler.popOrSleep
  rcases s.pending with _ | ⟨⟨t, line⟩, rest⟩
  · rfl
  · by_cases h : t ≤ s.now <;> simp [h]

/-- Helper: once the cache is empty and no line is left, an iteration only
advances the clock. -/
theorem iter_idle (s : CastState) (h1 : s.cache = "") (h2 : s.pending = []) :
    iter s = { s with now := s.now + 2 } := by
  unfold XrayCoreLogsHandler.iter XrayCoreLogsHandler.flushStep
    XrayCoreLogsHandler.popOrSleep
  simp [h1, h2]

/-- Helper: running from an empty-cache, empty-queue state never flushes
again. -/
theorem run_idle (k : Nat) : ∀ s : CastState, s.cache = "" → s.pending = [] →
    (run s k).sent = s.sent := by
  induction k with
  | zero => intro s _ _; rfl
  | succ n ih =>
    intro s h1 h2
    show (run (iter s) n).sent = s.sent
    rw [iter_idle s h1 h2]
    exact ih _ h1 h2

/-- C2: with the batcher started at t = 0 and lines "a", "b" arriving at
t = 0.0 and t = 0.1, exactly one callback ever fires — at t = 0.6, with
batch "a\nb\n" — no matter how long the loop keeps running; and in
general an iteration flushes only when the time since the last flush has
reached the interval and the cache is non-empty. -/
theorem C2_log_batcher (n : Nat) (hn : 6 ≤ n) :
    (run c2init n).sent = [(6, "a\nb\n")] ∧
    (∀ s : CastState, (iter s).sent ≠ s.sent →
      s.interval ≤ s.now - s.lastSent ∧ s.cache ≠ "") := by
  constructor
  · obtain ⟨k, rfl⟩ := Nat.exists_eq_add_of_le hn
    have hsplit : ∀ m j (s : CastState), run s (m + j) = run (run s m) j := by
      intro m
      induction m with
      | zero => intro j s; rw [Nat.zero_add]; rfl
      | succ i ih =>
        intro j s
        rw [Nat.succ_add]
        exact ih j (iter s)
    rw [hsplit 6 k c2init]
    have h6 : run c2init 6 =
        { now := 8, cache := "", lastSent := 6, sent := [(6, "a\nb\n")],
          pending := [], interval := 6 } := by decide
    rw [h6]
    exact run_idle k _ rfl rfl
  · intro s hne
    unfold XrayCoreLogsHandler.iter at hne
    rw [popOrSleep_sent] at hne
    unfold XrayCoreLogsHandler.flushStep at hne
    by_cases h : s.interval ≤ s.now - s.lastSent ∧ s.cache ≠ ""
    · exact h
    · simp [h] at hne

/-- Witness for C2 at the smallest admissible iteration count. -/
theorem C2_log_batcher_witness : (run c2init 6).sent = [(6, "a\nb\n")] :=
  (C2_log_batcher 6 (by decide)).1

/-- Helper invariant: along any interleaving from the initial state, once
`stop()` has returned from the join, the loop thread has exited. -/
theorem lb_joined_done {s : LBState} (h : LBReach lbInit s) :
    s.joined = true → s.pc = .done := by
  induction h with
  | refl => intro hj; exact absurd hj (by decide)
  | tail _ hstep ih =>
    cases hstep with
    | enterBody hpc hact =>
      intro hj
      exact absurd (ih hj) (by rw [hpc]; decide)
    | exitLoop hpc hact => intro _; rfl
    | fireCallback hpc =>
      intro hj
      exact absurd (ih hj) (by rw [hpc]; decide)
    | skipCallback hpc =>
      intro hj
      exact absurd (ih hj) (by rw [hpc]; decide)
    | setInactive hset => exact ih
    | joinReturns hset hpc hj => intro _; exact hpc

/-- Helper: from a state whose loop thread has exited, no later step can
fire the callback (or resurrect the thread). -/
theorem lb_done_frozen {s s' : LBState} (hpc : s.pc = .done)
    (h : Relation.ReflTransGen LBStep s s') :
    s'.pc = .done ∧ s'.callbacks = s.callbacks := by
  induction h with
  | refl => exact ⟨hpc, rfl⟩
  | tail _ hstep ih =>
    obtain ⟨hbpc, hbcb⟩ := ih
    cases hstep with
    | enterBody h1 h2 => exact absurd hbpc (by rw [h1]; decide)
    | exitLoop h1 h2 => exact absurd hbpc (by rw [h1]; decide)
    | fireCallback h1 => exact absurd hbpc (by rw [h1]; decide)
    | skipCallback h1 => exact absurd hbpc (by rw [h1]; decide)
    | setInactive h1 => exact ⟨hbpc, hbcb⟩
    | joinReturns h1 h2 h3 => exact ⟨hbpc, hbcb⟩

/-- C3: for every interleaving of the `cast` loop with a `stop()` call and
any timing of line production (the loop body may or may not fire the
callback at each pass), once `stop()` has returned — which requires
`active` to have been set false and the loop thread to have been joined —
no later step ever fires the callback: the callback count is frozen. -/
theorem C3_stop_quiesces (s s' : LBState) (hreach : LBReach lbInit s)
    (hj : s.joined = true) (hfut : Relation.ReflTransGen LBStep s s') :
    s'.callbacks = s.callbacks :=
  (lb_done_frozen (lb_joined_done hreach hj) hfut).2

/-- Terminal state of the concrete interleaving used as witness: the loop
runs one body pass that fires the callback, then `stop()` sets the flag,
the loop exits, and the join returns. -/
def lbFinal : LBState :=
  { active := false, pc := .done, stopSet := true, joined := true, callbacks := 1 }

/-- Witness for C3: the hypotheses are satisfiable — `lbFinal` is reachable
with `joined = true` — and the callback count never moves afterwards. -/
theorem C3_stop_quiesces_witness :
    lbFinal.joined = true ∧ lbFinal.callbacks = lbFinal.callbacks := by
  have h1 : LBStep lbInit
      { active := true, pc := .body, stopSet := false, joined := false, callbacks := 0 } :=
    LBStep.enterBody lbInit rfl rfl
  have h2 : LBStep
      { active := true, pc := .body, stopSet := false, joined := false, callbacks := 0 }
      { active := true, pc := .check, stopSet := false, joined := false, callbacks := 1 } :=
    LBStep.fireCallback _ rfl
  have h3 : LBStep
      { active := true, pc := .check, stopSet := false, joined := false, callbacks := 1 }
      { active := false, pc := .check, stopSet := true, joined := false, callbacks := 1 } :=
    LBStep.setInactive _ rfl
  have h4 : LBStep
      { active := false, pc := .check, stopSet := true, joined := false, callbacks := 1 }
      { active := false, pc := .done, stopSet := true, joined := false, callbacks := 1 } :=
    LBStep.exitLoop _ rfl rfl
  have h5 : LBStep
      { active := false, pc := .done, stopSet := true, joined := false, callbacks := 1 }
      lbFinal :=
    LBStep.joinReturns _ rfl rfl rfl
  have hreach : LBReach lbInit lbFinal :=
    Relation.ReflTransGen.tail
      (Relation.ReflTransGen.tail
        (Relation.ReflTransGen.tail
          (Relation.ReflTransGen.tail (Relation.ReflTransGen.single h1) h2) h3) h4) h5
  exact ⟨rfl, C3_stop_quiesces lbFinal lbFinal hreach rfl Relation.ReflTransGen.refl⟩

/-- C5: two consecutive `start` calls with no intervening `stop`, from a
fresh connected state, with valid configs and successful launches: both
succeed; the second call first stops and clears the first call's handle and
only then spawns the second process (visible in its event trace); and
afterwards exactly one process is running and exactly one handle exists —
the second one — while the session record is untouched. -/
theorem C5_consecutive_starts (env1 env2 : XrayService.StartEnv) (w : World) (conn : Conn)
    (p cfg1 cfg2 : String)
    (hconn : w.connection = some conn) (hpeer : conn.peer = some p)
    (hcore : w.core = none) (hrun : w.running = [])
    (h1c : env1.configOk = true) (h1l : env1.launchOk = true)
    (h2c : env2.configOk = true) (h2l : env2.launchOk = true) :
    (XrayService.start env1 w cfg1).err = none ∧
    (XrayService.start env2 (XrayService.start env1 w cfg1).w cfg2).err = none ∧
    (XrayService.start env2 (XrayService.start env1 w cfg1).w cfg2).tr =
      [.coreStopped w.nextPid, .coreSpawned (w.nextPid + 1)] ∧
    (XrayService.start env2 (XrayService.start env1 w cfg1).w cfg2).w.running =
      [w.nextPid + 1] ∧
    (XrayService.start env2 (XrayService.start env1 w cfg1).w cfg2).w.core =
      some { executable_path := XRAY_EXECUTABLE_PATH,
             assets_path := XRAY_ASSETS_PATH, version := env2.versionStr,
             config := some cfg2, started := true, pid := some (w.nextPid + 1) } ∧
    (XrayService.start env2 (XrayService.start env1 w cfg1).w cfg2).w.connection =
      some conn := by
  have h1 : XrayService.start env1 w cfg1 =
      ⟨{ w with
          core := some { executable_path := XRAY_EXECUTABLE_PATH,
                         assets_path := XRAY_ASSETS_PATH,
                         version := env1.versionStr,
                         config := some cfg1, started := true,
                         pid := some w.nextPid },
          running := [w.nextPid], nextPid := w.nextPid + 1 },
        [.coreSpawned w.nextPid], none⟩ := by
    simp [XrayService.start, hcore, hconn, hpeer, h1c, h1l, hrun]
  rw [h1]
  simp [XrayService.start, XrayService.stop, XRayCore.stopCore, hconn, hpeer,
    h2c, h2l]

/-- Witness for C5 on the concrete fresh connected world. -/
theorem C5_consecutive_starts_witness :
    (XrayService.start ⟨true, true, "v1"⟩
      (XrayService.start ⟨true, true, "v1"⟩ connectedWorld "cfgA").w "cfgB").w.running = [1] ∧
    (XrayService.start ⟨true, true, "v1"⟩
      (XrayService.start ⟨true, true, "v1"⟩ connectedWorld "cfgA").w "cfgB").tr =
      [.coreStopped 0, .coreSpawned 1] := by
  have h := C5_consecutive_starts ⟨true, true, "v1"⟩ ⟨true, true, "v1"⟩
    connectedWorld conn1 "10.0.0.1" "cfgA" "cfgB" rfl rfl rfl rfl rfl rfl rfl rfl
  exact ⟨h.2.2.2.1, h.2.2.1⟩

/-- An `update_geo` item on which every stage succeeds: non-empty stripped
name and url, downloadable url, writable file. -/
def itemOk (env : GeoEnv) (i : GeoItem) : Prop :=
  geoName i ≠ "" ∧ geoUrl i ≠ "" ∧ (∃ c, env.dl (geoUrl i) = .ok c) ∧
    env.save (geoName i) = none

/-- Content the environment serves for an item's url. -/
def dlContent (env : GeoEnv) (i : GeoItem) : String :=
  match env.dl (geoUrl i) with
  | .ok c => c
  | .error _ => ""

/-- Assets-directory contents after successfully saving a list of items. -/
def saveAll (env : GeoEnv) (fs : List (String × String)) :
    List GeoItem → List (String × String)
| [] => fs
| i :: rest => saveAll env (setKey fs (geoName i) (dlContent env i)) rest

/-- The error `_download_files_to` raises at a failing item: validation
first, then download, then save. -/
def errOf (env : GeoEnv) (i : GeoItem) : Err :=
  if geoName i = "" ∨ geoUrl i = "" then .runtimeError itemValidationMsg
  else
    match env.dl (geoUrl i) with
    | .error e => .runtimeError (dlFailMsg (geoName i) e)
    | .ok _ =>
      match env.save (geoName i) with
      | some e => .runtimeError (saveFailMsg (geoName i) e)
      | none => .runtimeError itemValidationMsg

/-- Helper: the first failing item aborts the whole batch with its error,
and exactly the items before it have been written. -/
theorem download_files_to_firstFail (env : GeoEnv) :
    ∀ (pre : List GeoItem) (i : GeoItem) (post : List GeoItem)
      (fs : List (String × String)),
      (∀ j ∈ pre, itemOk env j) → ¬ itemOk env i →
      (download_files_to env fs (pre ++ i :: post)).res = .error (errOf env i) ∧
      (download_files_to env fs (pre ++ i :: post)).fs = saveAll env fs pre := by
  intro pre
  induction pre with
  | nil =>
    intro i post fs _ hbad
    by_cases hnu : geoName i = "" ∨ geoUrl i = ""
    · simp [download_files_to, errOf, hnu, saveAll]
    · rcases hdl : env.dl (geoUrl i) with e | c
      · simp [download_files_to, errOf, hnu, hdl, saveAll]
      · rcases hsv : env.save (geoName i) with _ | e
        · rw [not_or] at hnu
          exact absurd ⟨hnu.1, hnu.2, ⟨c, hdl⟩, hsv⟩ hbad
        · simp [download_files_to, errOf, hnu, hdl, hsv, saveAll]
  | cons j rest ih =>
    intro i post fs hok hbad
    obtain ⟨hn, hu, ⟨c, hc⟩, hs⟩ := hok j (by simp)
    have hnu : ¬ (geoName j = "" ∨ geoUrl j = "") := by simp [hn, hu]
    have hrest := ih i post (setKey fs (geoName j) c)
      (fun x hx => hok x (by simp [hx])) hbad
    have hcontent : dlContent env j = c := by simp [dlContent, hc]
    constructor
    · simp only [List.cons_append, download_files_to, hnu, if_false, hc, hs]
      simp [hrest.1, Except.map]
    · simp only [List.cons_append, download_files_to, hnu, if_false, hc, hs]
      simp [hrest.2, saveAll, hcontent]

/-- Helper: a batch whose items all succeed returns a saved-files list. -/
theorem download_files_to_allOk (env : GeoEnv) :
    ∀ (files : List GeoItem) (fs : List (String × String)),
      (∀ j ∈ files, itemOk env j) →
      ∃ saved, (download_files_to env fs files).res = .ok saved := by
  intro files
  induction files with
  | nil => intro fs _; exact ⟨[], rfl⟩
  | cons j rest ih =>
    intro fs hok
    obtain ⟨hn, hu, ⟨c, hc⟩, hs⟩ := hok j (by simp)
    have hnu : ¬ (geoName j = "" ∨ geoUrl j = "") := by simp [hn, hu]
    obtain ⟨saved, hsv⟩ := ih (setKey fs (geoName j) c)
      (fun x hx => hok x (by simp [hx]))
    refine ⟨⟨geoName j, "/var/lib/reb/assets/" ++ geoName j⟩ :: saved, ?_⟩
    simp [download_files_to, hnu, hc, hs, hsv, Except.map]

/-- C7: `update_geo` rejects a non-list argument and the empty list with
the validation error before anything is downloaded or written; on a
non-empty list, the first item whose name or url is empty or whose
download or save fails aborts the whole batch with that item's error, no
result is returned, and only the items before it have been written; in
particular a single-item batch whose url fails to download errors out with
no download succeeding and the assets directory exactly as before — no
partially-written file. -/
theorem C7_update_geo (env : GeoEnv) (w : World) :
    (XrayService.update_geo env w .nonList =
      ⟨w, [], some (.runtimeError geoValidationMsg), none, []⟩) ∧
    (XrayService.update_geo env w (.list []) =
      ⟨w, [], some (.runtimeError geoValidationMsg), none, []⟩) ∧
    (∀ pre i post, (∀ j ∈ pre, itemOk env j) → ¬ itemOk env i →
      (XrayService.update_geo env w (.list (pre ++ i :: post))).err =
        some (errOf env i) ∧
      (XrayService.update_geo env w (.list (pre ++ i :: post))).detail = none ∧
      (XrayService.update_geo env w (.list (pre ++ i :: post))).w.assetsFiles =
        saveAll env w.assetsFiles pre) ∧
    (∀ e, env.dl "bad://x" = .error e →
      XrayService.update_geo env w (.list [⟨some "geoip.dat", some "bad://x"⟩]) =
        ⟨w, [.download "bad://x"],
          some (.runtimeError (dlFailMsg "geoip.dat" e)), none, []⟩) := by
  refine ⟨rfl, rfl, fun pre i post hok hbad => ?_, fun e hdl => ?_⟩
  · have hD := download_files_to_firstFail env pre i post w.assetsFiles hok hbad
    have hne : (pre ++ i :: post).isEmpty = false := by cases pre <;> rfl
    refine ⟨?_, ?_, ?_⟩ <;>
      simp [XrayService.update_geo, hne, hD.1, hD.2]
  · have hn : geoName ⟨some "geoip.dat", some "bad://x"⟩ = "geoip.dat" := by decide
    have hu : geoUrl ⟨some "geoip.dat", some "bad://x"⟩ = "bad://x" := by decide
    have hnu : ¬ (geoName ⟨some "geoip.dat", some "bad://x"⟩ = "" ∨
        geoUrl ⟨some "geoip.dat", some "bad://x"⟩ = "") := by
      simp [hn, hu]
    have hw : ({ w with assetsFiles := w.assetsFiles } : World) = w := by
      cases w; rfl
    simp [XrayService.update_geo, download_files_to, hnu, hn, hu, hdl, hw]

/-- Environment and world used by the C7 witness. -/
def geoEnvBad : GeoEnv :=
  { dl := fun _ => .error "no route to host", save := fun _ => none }

theorem C7_update_geo_witness :
    XrayService.update_geo geoEnvBad emptyWorld
        (.list [⟨some "geoip.dat", some "bad://x"⟩]) =
      ⟨emptyWorld, [.download "bad://x"],
        some (.runtimeError (dlFailMsg "geoip.dat" "no route to host")), none, []⟩ :=
  (C7_update_geo geoEnvBad emptyWorld).2.2.2 "no route to host" rfl

/-- C9: whenever the deployment descriptor `/opt/reb/docker-compose.yml`
exists, a call to `update_core` (with resolvable platform, successful
download and a found binary) or to `update_geo` (with a fully successful
batch) reaches the descriptor-patching step, which ALWAYS raises: the
redeploy line calls `subprocess.run` but `subprocess` is never imported in
`rpyc_service.py`, so the NameError is caught and re-raised as a
RuntimeError.  Neither call ever returns its success payload then —
`detail` is never produced — yet the descriptor has already been rewritten
with the new environment variable and the volume entry before the error is
raised, so the failure is not atomic. -/
theorem C9_compose_redeploy_broken (cenv : CoreEnv) (genv : GeoEnv) (w : World)
    (comp : Compose) (version : String) (files : List GeoItem)
    (hcomp : w.compose = some comp) :
    (∀ asset z,
      XrayService.detect_asset_name cenv.sysName cenv.machine = .ok asset →
      cenv.dl (coreUrl version asset) = .ok z → cenv.exeFound = true →
      (XrayService.update_core cenv w version).err =
        some (.runtimeError composeFailMsg) ∧
      (XrayService.update_core cenv w version).detail = none ∧
      (XrayService.update_core cenv w version).w.compose =
        some (patchCompose comp "XRAY_EXECUTABLE_PATH"
          "/var/lib/marzban-node/xray-core/xray")) ∧
    ((∀ j ∈ files, itemOk genv j) → files ≠ [] →
      (XrayService.update_geo genv w (.list files)).err =
        some (.runtimeError composeFailMsg) ∧
      (XrayService.update_geo genv w (.list files)).detail = none ∧
      (XrayService.update_geo genv w (.list files)).w.compose =
        some (patchCompose comp "XRAY_ASSETS_PATH" "/usr/local/share/xray")) := by
  constructor
  · intro asset z hdet hdl hexe
    rcases hc : w.core with _ | c
    · refine ⟨?_, ?_, ?_⟩ <;>
        simp [XrayService.update_core, hdet, hdl, hexe, hc, hcomp]
    · by_cases hs : c.started
      · rcases hp : c.pid with _ | p <;>
          · refine ⟨?_, ?_, ?_⟩ <;>
              simp [XrayService.update_core, XRayCore.stopCore, hdet, hdl, hexe,
                hc, hs, hp, hcomp]
      · refine ⟨?_, ?_, ?_⟩ <;>
          simp [XrayService.update_core, XRayCore.stopCore, hdet, hdl, hexe,
            hc, hs, hcomp]
  · intro hok hne
    obtain ⟨saved, hsv⟩ := download_files_to_allOk genv files w.assetsFiles hok
    have hempty : files.isEmpty = false := by
      cases files with
      | nil => exact absurd rfl hne
      | cons a t => rfl
    rcases hc : w.core with _ | c <;>
      · refine ⟨?_, ?_, ?_⟩ <;>
          simp [XrayService.update_geo, hempty, hsv, hc, hcomp]

/-- Concrete environments for the C9 witness. -/
def coreEnvOk : CoreEnv :=
  { sysName := "linux", machine := "x86_64", dl := fun _ => .ok "zipbytes",
    exeFound := true }

def geoEnvOk : GeoEnv :=
  { dl := fun _ => .ok "geodata", save := fun _ => none }

def composeWorld : World := { emptyWorld with compose := some ⟨[], []⟩ }

theorem C9_compose_redeploy_broken_witness :
    (XrayService.update_core coreEnvOk composeWorld "v25").err =
      some (.runtimeError composeFailMsg) ∧
    (XrayService.update_geo geoEnvOk composeWorld
      (.list [⟨some "geoip.dat", some "https://g.co/geoip.dat"⟩])).err =
      some (.runtimeError composeFailMsg) := by
  have h := C9_compose_redeploy_broken coreEnvOk geoEnvOk composeWorld ⟨[], []⟩
    "v25" [⟨some "geoip.dat", some "https://g.co/geoip.dat"⟩] rfl
  refine ⟨(h.1 "Xray-linux-64.zip" "zipbytes" (by decide) rfl rfl).1, ?_⟩
  refine (h.2 ?_ (by decide)).1
  intro j hj
  rw [List.mem_singleton] at hj
  subst hj
  exact ⟨by decide, by decide, ⟨"geodata", rfl⟩, rfl⟩

/-- C10: calling `update_core` while a started core handle exists (and the
compose descriptor is absent, so the broken redeploy step is skipped), with
resolvable platform, successful download and a found binary: the running
process is stopped strictly before the new binary is installed (event
order: download, stop, install); the existing handle object is kept — not
cleared, not replaced — with only its `executable_path` (now the installed
path) and its `started` flag changed; every other handle field, the
session record and the rest of the world are unchanged, apart from the
stopped pid leaving the running set and the installed binary appearing. -/
theorem C10_update_core_in_place (env : CoreEnv) (w : World) (c : XRayCore)
    (p : Nat) (version asset z : String)
    (hc : w.core = some c) (hs : c.started = true) (hp : c.pid = some p)
    (hnc : w.compose = none)
    (hdet : XrayService.detect_asset_name env.sysName env.machine = .ok asset)
    (hdl : env.dl (coreUrl version asset) = .ok z)
    (hexe : env.exeFound = true) :
    XrayService.update_core env w version =
      ⟨{ w with
          core := some { c with executable_path := installedExePath, started := false },
          running := w.running.erase p,
          installedExe := some installedExePath },
        [.download (coreUrl version asset), .coreStopped p,
          .installed installedExePath],
        none, some ("Node core ready at " ++ installedExePath), []⟩ := by
  simp [XrayService.update_core, XRayCore.stopCore, hc, hs, hp, hnc, hdet,
    hdl, hexe]

/-- World for the C10 witness: a started core and no compose file. -/
theorem C10_update_core_in_place_witness :
    XrayService.update_core coreEnvOk startedWorld "v25" =
      ⟨{ startedWorld with
          core := some { startedCore with
            executable_path := installedExePath, started := false },
          running := [],
          installedExe := some installedExePath },
        [.download (coreUrl "v25" "Xray-linux-64.zip"), .coreStopped 7,
          .installed installedExePath],
        none, some ("Node core ready at " ++ installedExePath), []⟩ := by
  have h := C10_update_core_in_place coreEnvOk startedWorld startedCore 7
    "v25" "Xray-linux-64.zip" "zipbytes" rfl rfl rfl rfl (by decide) rfl rfl
  rw [h]
  rfl

end Theorems
